import Mathlib

/-!
Verification of the natural-language specification of
`tensorflow_service.py` (an HTTP image-classification service) against a
shallow embedding of its code.

The embedding models:
* the model-acquisition procedure `maybe_download_and_extract`
  (directory validity check, initial download, bounded extract/re-download
  retry loop) as a function producing a trace of observable events plus an
  outcome;
* `download_model` and the stub `is_valid_url`;
* the top-K reduction `predictions.argsort()[-K:][::-1]` over rational
  scores, with numpy's unstable default argsort modelled by the predicate
  "any permutation of the `(index, value)` pairs with non-decreasing
  values", plus the exact stable insertion-sort path numpy takes on
  small arrays for concrete evaluation;
* query-string handling `parse_qsl(path[2:])[0][1]` of `do_GET`;
* the warm-up image selection of `main` / `warm_up_model`;
* the per-request operation sequence of `run_inference_on_image` (for the
  timing computation and for counting `NodeLookup` constructions).

File-system facts (`os.path.exists`, `os.path.isdir`) and the outcomes of
effectful steps (archive extraction, network transfer) are supplied as
oracle functions; everything else is translated directly from the source.
-/

namespace TensorflowService

/-! ## Model acquisition (`maybe_download_and_extract`, lines 296-340) -/

/-- Observable events of the acquisition procedure: a `mkdirEvent` models the
`os.makedirs` call (line 317), a `downloadEvent` models a call of
`download_model` (lines 322 and 338), and `extractAttempt s` models one
attempt to open and extract the archive (lines 328-329), with `s` recording
whether it succeeded. -/
inductive Event where
  | mkdirEvent
  | downloadEvent
  | extractAttempt (success : Bool)
deriving DecidableEq, Repr

/-- Outcome of the acquisition procedure: early return on a valid directory
(line 315), the `RuntimeError` for a non-directory path (line 319), a
`DownloadError` escaping from `download_model`, normal completion, or the
final `RuntimeError` of line 340 after exhausting extraction attempts. -/
inductive AcqOutcome where
  | earlyReturn
  | notDirError
  | downloadError
  | success
  | acquisitionError
deriving DecidableEq, Repr

/-- The fixed archive URL (line 79). -/
def DATA_URL : String :=
  "http://download.tensorflow.org/models/image/imagenet/inception-2015-12-05.tgz"

/-- The three file names required in the model directory (lines 298-302). -/
def required_model_files : List String :=
  ["classify_image_graph_def.pb",
   "imagenet_2012_challenge_label_map_proto.pbtxt",
   "imagenet_synset_to_human_label_map.txt"]

/-- Translation of `is_extracted_model_dir` (lines 296-308): the directory is
valid iff every required file exists.  `ex` is the `os.path.exists` oracle and
`os.path.join` is modelled as concatenation with a slash. -/
def is_extracted_model_dir (ex : String → Bool) (directory : String) : Bool :=
  required_model_files.all (fun fn => ex (directory ++ "/" ++ fn))

/-- Translation of the `while not tarfile_extracted and cnt < MAX_RETRY` loop
(lines 326-338).  `fuel` is `MAX_RETRY - cnt`; `res cnt` tells whether the
extraction attempt at counter value `cnt` succeeds (an exception caught at
lines 332-335 otherwise); `dl n` tells whether the `n`-th `download_model`
call of the whole procedure returns normally (a `DownloadError` propagates
otherwise).  On an extraction failure the code increments `cnt` and
re-downloads (line 338) before re-checking the loop condition, so a
`downloadEvent` is emitted even when the loop is about to exit.  When the
loop exits without success, line 340 raises (`acquisitionError`). -/
def extractLoop (res dl : Nat → Bool) : Nat → Nat → Nat → List Event × AcqOutcome
  | 0, _, _ => ([], AcqOutcome.acquisitionError)
  | fuel + 1, cnt, dlCount =>
    if res cnt then
      ([Event.extractAttempt true], AcqOutcome.success)
    else
      if dl dlCount then
        let r := extractLoop res dl fuel (cnt + 1) (dlCount + 1)
        (Event.extractAttempt false :: Event.downloadEvent :: r.1, r.2)
      else
        ([Event.extractAttempt false, Event.downloadEvent], AcqOutcome.downloadError)

/-- The hardcoded attempt ceiling (line 324). -/
def MAX_RETRY : Nat := 2

/-- Lines 320-338: the initial download when the archive is absent
(`archivePresent` is `os.path.exists(filepath)`), followed by the retry
loop starting at `cnt = 0`.  The download counter starts at 1 when an
initial download happened. -/
def downloadAndRetryLoop (archivePresent : Bool) (res dl : Nat → Bool) :
    List Event × AcqOutcome :=
  if !archivePresent then
    if dl 0 then
      let r := extractLoop res dl MAX_RETRY 0 1
      (Event.downloadEvent :: r.1, r.2)
    else
      ([Event.downloadEvent], AcqOutcome.downloadError)
  else
    extractLoop res dl MAX_RETRY 0 0

/-- Translation of `maybe_download_and_extract` (lines 311-340).  `ex` and
`isdir` are the `os.path.exists` / `os.path.isdir` oracles on the initial
file-system state, `dest` is `FLAGS.model_dir`, and `res`, `dl` are the
extraction / download outcome oracles described at `extractLoop`. -/
def maybe_download_and_extract (ex isdir : String → Bool) (dest : String)
    (res dl : Nat → Bool) : List Event × AcqOutcome :=
  if is_extracted_model_dir ex dest then
    ([], AcqOutcome.earlyReturn)
  else
    let filename := (DATA_URL.splitOn "/").getLastD ""
    let filepath := dest ++ "/" ++ filename
    if !(ex dest) then
      let r := downloadAndRetryLoop (ex filepath) res dl
      (Event.mkdirEvent :: r.1, r.2)
    else if !(isdir dest) then
      ([], AcqOutcome.notDirError)
    else
      downloadAndRetryLoop (ex filepath) res dl

/-- Whether an event is an extraction attempt. -/
def isExtractAttempt : Event → Bool
  | Event.extractAttempt _ => true
  | _ => false

/-- Number of extraction attempts in a trace. -/
def countExtractAttempts : List Event → Nat
  | [] => 0
  | e :: rest => (if isExtractAttempt e then 1 else 0) + countExtractAttempts rest

/-- Holds when every failed extraction attempt in the trace is immediately
followed by a download. -/
def downloadFollowsFailure : List Event → Bool
  | [] => true
  | Event.extractAttempt false :: rest =>
    match rest.head? with
    | some Event.downloadEvent => downloadFollowsFailure rest
    | _ => false
  | _ :: rest => downloadFollowsFailure rest

lemma countExtractAttempts_extractLoop_le (res dl : Nat → Bool) :
    ∀ fuel cnt dlCount,
      countExtractAttempts (extractLoop res dl fuel cnt dlCount).1 ≤ fuel := by
  intro fuel
  induction fuel with
  | zero => intro cnt dlCount; simp [extractLoop, countExtractAttempts]
  | succ n ih =>
    intro cnt dlCount
    by_cases hr : res cnt
    · simp [extractLoop, hr, countExtractAttempts, isExtractAttempt]
    · by_cases hd : dl dlCount
      · have := ih (cnt + 1) (dlCount + 1)
        simp only [extractLoop, hr, hd, countExtractAttempts, isExtractAttempt,
          if_false, if_true, Bool.false_eq_true, ite_false, ite_true]
        omega
      · simp [extractLoop, hr, hd, countExtractAttempts, isExtractAttempt]

lemma downloadFollowsFailure_cons_download (l : List Event) :
    downloadFollowsFailure (Event.downloadEvent :: l) = downloadFollowsFailure l := by
  simp [downloadFollowsFailure]

lemma downloadFollowsFailure_extractLoop (res dl : Nat → Bool) :
    ∀ fuel cnt dlCount,
      downloadFollowsFailure (extractLoop res dl fuel cnt dlCount).1 = true := by
  intro fuel
  induction fuel with
  | zero => intro cnt dlCount; simp [extractLoop, downloadFollowsFailure]
  | succ n ih =>
    intro cnt dlCount
    by_cases hr : res cnt
    · simp [extractLoop, hr, downloadFollowsFailure]
    · by_cases hd : dl dlCount
      · simpa [extractLoop, hr, hd, downloadFollowsFailure] using
          ih (cnt + 1) (dlCount + 1)
      · simp [extractLoop, hr, hd, downloadFollowsFailure]

lemma extractLoop_two_failures (res dl : Nat → Bool) (cnt dlCount : Nat)
    (h0 : res cnt = false) (h1 : res (cnt + 1) = false)
    (d0 : dl dlCount = true) (d1 : dl (dlCount + 1) = true) :
    extractLoop res dl 2 cnt dlCount =
      ([Event.extractAttempt false, Event.downloadEvent,
        Event.extractAttempt false, Event.downloadEvent],
       AcqOutcome.acquisitionError) := by
  simp [extractLoop, h0, h1, d0, d1]

lemma countExtractAttempts_downloadAndRetryLoop_le (ap : Bool) (res dl : Nat → Bool) :
    countExtractAttempts (downloadAndRetryLoop ap res dl).1 ≤ 2 := by
  by_cases hap : ap
  · simpa [downloadAndRetryLoop, hap, MAX_RETRY] using
      countExtractAttempts_extractLoop_le res dl 2 0 0
  · by_cases hd : dl 0
    · simpa [downloadAndRetryLoop, hap, hd, MAX_RETRY, countExtractAttempts,
        isExtractAttempt] using countExtractAttempts_extractLoop_le res dl 2 0 1
    · simp [downloadAndRetryLoop, hap, hd, countExtractAttempts, isExtractAttempt]

lemma downloadFollowsFailure_downloadAndRetryLoop (ap : Bool) (res dl : Nat → Bool) :
    downloadFollowsFailure (downloadAndRetryLoop ap res dl).1 = true := by
  by_cases hap : ap
  · simpa [downloadAndRetryLoop, hap, MAX_RETRY] using
      downloadFollowsFailure_extractLoop res dl 2 0 0
  · by_cases hd : dl 0
    · simpa [downloadAndRetryLoop, hap, hd, MAX_RETRY,
        downloadFollowsFailure_cons_download] using
        downloadFollowsFailure_extractLoop res dl 2 0 1
    · simp [downloadAndRetryLoop, hap, hd, downloadFollowsFailure]

lemma downloadAndRetryLoop_both_fail (ap : Bool) (res dl : Nat → Bool)
    (hdl : ∀ n, dl n = true) (h0 : res 0 = false) (h1 : res 1 = false) :
    (downloadAndRetryLoop ap res dl).2 = AcqOutcome.acquisitionError := by
  by_cases hap : ap
  · simp [downloadAndRetryLoop, hap, MAX_RETRY,
      extractLoop_two_failures res dl 0 0 h0 h1 (hdl 0) (hdl 1)]
  · simp [downloadAndRetryLoop, hap, hdl 0, MAX_RETRY,
      extractLoop_two_failures res dl 0 1 h0 h1 (hdl 1) (hdl 2)]

lemma downloadFollowsFailure_cons_mkdir (l : List Event) :
    downloadFollowsFailure (Event.mkdirEvent :: l) = downloadFollowsFailure l := by
  simp [downloadFollowsFailure]

/-- C1: on every run in which the model directory is not already valid, at
most 2 extraction attempts are made; every failed extraction attempt is
immediately followed by a re-download of the archive; and when both attempts
fail (with every download returning normally and the destination path not
colliding with a non-directory) the procedure ends with the fatal
`RuntimeError` of line 340, which aborts startup. -/
theorem acquisition_retry_policy (ex isdir : String → Bool) (dest : String)
    (res dl : Nat → Bool) (hvalid : is_extracted_model_dir ex dest = false) :
    countExtractAttempts (maybe_download_and_extract ex isdir dest res dl).1 ≤ 2 ∧
    downloadFollowsFailure (maybe_download_and_extract ex isdir dest res dl).1 = true ∧
    ((ex dest = true → isdir dest = true) → (∀ n, dl n = true) →
      res 0 = false → res 1 = false →
      (maybe_download_and_extract ex isdir dest res dl).2 =
        AcqOutcome.acquisitionError) := by
  refine ⟨?_, ?_, ?_⟩
  · by_cases he : ex dest = true
    · by_cases hi : isdir dest = true
      · simpa [maybe_download_and_extract, hvalid, he, hi] using
          countExtractAttempts_downloadAndRetryLoop_le _ res dl
      · simp [maybe_download_and_extract, hvalid, he, hi, countExtractAttempts]
    · simpa [maybe_download_and_extract, hvalid, he, countExtractAttempts,
        isExtractAttempt] using countExtractAttempts_downloadAndRetryLoop_le _ res dl
  · by_cases he : ex dest = true
    · by_cases hi : isdir dest = true
      · simpa [maybe_download_and_extract, hvalid, he, hi] using
          downloadFollowsFailure_downloadAndRetryLoop _ res dl
      · simp [maybe_download_and_extract, hvalid, he, hi, downloadFollowsFailure]
    · simpa [maybe_download_and_extract, hvalid, he,
        downloadFollowsFailure_cons_mkdir] using
        downloadFollowsFailure_downloadAndRetryLoop _ res dl
  · intro hdir hdl h0 h1
    by_cases he : ex dest = true
    · simpa [maybe_download_and_extract, hvalid, he, hdir he] using
        downloadAndRetryLoop_both_fail _ res dl hdl h0 h1
    · simpa [maybe_download_and_extract, hvalid, he] using
        downloadAndRetryLoop_both_fail _ res dl hdl h0 h1

/-- Witness for `acquisition_retry_policy`: an empty file system, every
download succeeding, both extractions failing. -/
theorem acquisition_retry_policy_witness :
    is_extracted_model_dir (fun _ => false) "/tmp/imagenet" = false ∧
    (maybe_download_and_extract (fun _ => false) (fun _ => false) "/tmp/imagenet"
        (fun _ => false) (fun _ => true)).2 = AcqOutcome.acquisitionError :=
  ⟨rfl,
    (acquisition_retry_policy (fun _ => false) (fun _ => false) "/tmp/imagenet"
        (fun _ => false) (fun _ => true) rfl).2.2
      (fun h => by simp at h) (fun _ => rfl) rfl rfl⟩

/-- C3: when the model directory already contains all three required files,
`maybe_download_and_extract` returns at line 315 with an empty event trace:
no download, no directory creation, no extraction. -/
theorem valid_model_dir_early_return (ex isdir : String → Bool) (dest : String)
    (res dl : Nat → Bool)
    (h : ∀ fn ∈ required_model_files, ex (dest ++ "/" ++ fn) = true) :
    maybe_download_and_extract ex isdir dest res dl = ([], AcqOutcome.earlyReturn) := by
  have hv : is_extracted_model_dir ex dest = true := by
    simpa [is_extracted_model_dir, List.all_eq_true] using h
  simp [maybe_download_and_extract, hv]

/-- Witness for `valid_model_dir_early_return`: a file system on which every
path exists. -/
theorem valid_model_dir_early_return_witness :
    (∀ fn ∈ required_model_files,
      (fun _ : String => true) ("/tmp/imagenet" ++ "/" ++ fn) = true) ∧
    maybe_download_and_extract (fun _ => true) (fun _ => true) "/tmp/imagenet"
        (fun _ => false) (fun _ => false) = ([], AcqOutcome.earlyReturn) :=
  ⟨fun _ _ => rfl,
    valid_model_dir_early_return (fun _ => true) (fun _ => true) "/tmp/imagenet"
      (fun _ => false) (fun _ => false) (fun _ _ => rfl)⟩

lemma downloadAndRetryLoop_exhaustion (ap : Bool) (res dl : Nat → Bool)
    (hdl : ∀ n, dl n = true) (h0 : res 0 = false) (h1 : res 1 = false) :
    (downloadAndRetryLoop ap res dl).1.getLast? = some Event.downloadEvent ∧
    countExtractAttempts (downloadAndRetryLoop ap res dl).1 = 2 ∧
    (downloadAndRetryLoop ap res dl).2 = AcqOutcome.acquisitionError := by
  cases ap
  · rw [show downloadAndRetryLoop false res dl =
        ([Event.downloadEvent, Event.extractAttempt false, Event.downloadEvent,
          Event.extractAttempt false, Event.downloadEvent],
         AcqOutcome.acquisitionError) from by
      simp [downloadAndRetryLoop, hdl 0, MAX_RETRY,
        extractLoop_two_failures res dl 0 1 h0 h1 (hdl 1) (hdl 2)]]
    exact ⟨by decide, by decide, rfl⟩
  · rw [show downloadAndRetryLoop true res dl =
        ([Event.extractAttempt false, Event.downloadEvent,
          Event.extractAttempt false, Event.downloadEvent],
         AcqOutcome.acquisitionError) from by
      simp [downloadAndRetryLoop, MAX_RETRY,
        extractLoop_two_failures res dl 0 0 h0 h1 (hdl 0) (hdl 1)]]
    exact ⟨by decide, by decide, rfl⟩

/-- C9: when both extraction attempts fail, the final failed attempt is still
followed by one more re-download (line 338 runs before the loop condition is
re-checked), so the trace ends in a download that is never extracted, exactly
2 extraction attempts were made, and the procedure then raises the fatal
error of line 340. -/
theorem final_redownload_after_exhaustion (ex isdir : String → Bool) (dest : String)
    (res dl : Nat → Bool) (hvalid : is_extracted_model_dir ex dest = false)
    (hdir : ex dest = true → isdir dest = true) (hdl : ∀ n, dl n = true)
    (h0 : res 0 = false) (h1 : res 1 = false) :
    (maybe_download_and_extract ex isdir dest res dl).1.getLast? =
      some Event.downloadEvent ∧
    countExtractAttempts (maybe_download_and_extract ex isdir dest res dl).1 = 2 ∧
    (maybe_download_and_extract ex isdir dest res dl).2 =
      AcqOutcome.acquisitionError := by
  obtain ⟨hlast, hcount, hout⟩ := downloadAndRetryLoop_exhaustion
    (ex (dest ++ "/" ++ (DATA_URL.splitOn "/").getLastD "")) res dl hdl h0 h1
  by_cases he : ex dest = true
  · rw [show maybe_download_and_extract ex isdir dest res dl =
        downloadAndRetryLoop
          (ex (dest ++ "/" ++ (DATA_URL.splitOn "/").getLastD "")) res dl by
      simp [maybe_download_and_extract, hvalid, he, hdir he]]
    exact ⟨hlast, hcount, hout⟩
  · rw [show maybe_download_and_extract ex isdir dest res dl =
        (Event.mkdirEvent ::
          (downloadAndRetryLoop
            (ex (dest ++ "/" ++ (DATA_URL.splitOn "/").getLastD "")) res dl).1,
         (downloadAndRetryLoop
            (ex (dest ++ "/" ++ (DATA_URL.splitOn "/").getLastD "")) res dl).2) by
      simp [maybe_download_and_extract, hvalid, he]]
    refine ⟨?_, ?_, hout⟩
    · cases hr :
        (downloadAndRetryLoop
          (ex (dest ++ "/" ++ (DATA_URL.splitOn "/").getLastD "")) res dl).1 with
      | nil => rw [hr] at hlast; simp at hlast
      | cons b t =>
        rw [hr] at hlast
        show (Event.mkdirEvent :: b :: t).getLast? = some Event.downloadEvent
        rw [List.getLast?_cons_cons]; exact hlast
    · simpa [countExtractAttempts, isExtractAttempt] using hcount

/-- Witness for `final_redownload_after_exhaustion`: empty file system, every
download succeeding, both extractions failing. -/
theorem final_redownload_after_exhaustion_witness :
    is_extracted_model_dir (fun _ => false) "/tmp/imagenet" = false ∧
    ((maybe_download_and_extract (fun _ => false) (fun _ => false) "/tmp/imagenet"
        (fun _ => false) (fun _ => true)).1.getLast? = some Event.downloadEvent ∧
     countExtractAttempts
        (maybe_download_and_extract (fun _ => false) (fun _ => false) "/tmp/imagenet"
          (fun _ => false) (fun _ => true)).1 = 2 ∧
     (maybe_download_and_extract (fun _ => false) (fun _ => false) "/tmp/imagenet"
        (fun _ => false) (fun _ => true)).2 = AcqOutcome.acquisitionError) :=
  ⟨rfl,
    final_redownload_after_exhaustion (fun _ => false) (fun _ => false) "/tmp/imagenet"
      (fun _ => false) (fun _ => true) rfl (fun h => by simp at h)
      (fun _ => rfl) rfl rfl⟩

/-! ## Top-K reduction (`run_inference_on_image`, line 242)

Line 242 computes `top_k = predictions.argsort()[-FLAGS.num_top_predictions:][::-1]`.
Scores are modelled as rationals (a linear order standing for the float
scores compared by `argsort`).  `np.argsort` with its default
`kind='quicksort'` (introsort) guarantees only an ascending sort of the
scores: the relative order of equal scores is NOT specified for general
arrays, because the partitioning steps swap equal elements.  The embedding
therefore treats ANY reordering of the `(index, score)` pairs with
non-decreasing scores as a possible argsort output (`IsArgsortOutput`).
For arrays shorter than introsort's small-array cutoff (16 elements) no
partitioning step runs and the whole array is sorted by a plain insertion
sort, which is stable; on such vectors the output is exactly the sort of
the pairs by `(score, index)`, and `argsort_smallvec` computes it — this
exact small-vector path is what the concrete counterexample evaluates. -/

/-- Order on `(index, score)` pairs realising the insertion-sort path that
numpy's introsort takes on small arrays: by score, ties by increasing
index (what a stable ascending sort of distinct indices produces). -/
def pairLe (p q : Nat × ℚ) : Prop := p.2 < q.2 ∨ (p.2 = q.2 ∧ p.1 ≤ q.1)

instance : DecidableRel pairLe := fun p q =>
  inferInstanceAs (Decidable (p.2 < q.2 ∨ (p.2 = q.2 ∧ p.1 ≤ q.1)))

instance : IsTotal (Nat × ℚ) pairLe := by
  constructor
  intro a b
  rcases lt_trichotomy a.2 b.2 with h | h | h
  · exact Or.inl (Or.inl h)
  · rcases Nat.le_total a.1 b.1 with hi | hi
    · exact Or.inl (Or.inr ⟨h, hi⟩)
    · exact Or.inr (Or.inr ⟨h.symm, hi⟩)
  · exact Or.inr (Or.inl h)

instance : IsTrans (Nat × ℚ) pairLe := by
  constructor
  intro a b c hab hbc
  rcases hab with h1 | ⟨h1, h1i⟩ <;> rcases hbc with h2 | ⟨h2, h2i⟩
  · exact Or.inl (h1.trans h2)
  · exact Or.inl (lt_of_lt_of_le h1 (le_of_eq h2))
  · exact Or.inl (lt_of_le_of_lt (le_of_eq h1) h2)
  · exact Or.inr ⟨h1.trans h2, h1i.trans h2i⟩

/-- Everything `np.argsort` guarantees for its output on `xs` (line 242,
default unstable sort kind): `s` is a permutation of the `(index, score)`
pairs of `xs` with non-decreasing scores.  Nothing is guaranteed about the
relative order of equal scores. -/
def IsArgsortOutput (xs : List ℚ) (s : List (Nat × ℚ)) : Prop :=
  List.Perm s xs.enum ∧ s.Pairwise (fun p q => p.2 ≤ q.2)

/-- The `argsort` result on a vector short enough for introsort's
insertion-sort path (below the 16-element cutoff): the indices sorted by
ascending score, ties by ascending index, computed by a stable insertion
sort exactly as numpy's small-array code path does. -/
def argsort_smallvec (xs : List ℚ) : List Nat :=
  (List.insertionSort pairLe xs.enum).map Prod.fst

/-- Python's `l[-k:]` slice: the last `min k (length l)` elements, except
that for `k = 0` the slice `l[-0:]` is `l[0:]`, the whole list. -/
def pySliceLast (k : Nat) (l : List α) : List α :=
  if k = 0 then l else l.drop (l.length - k)

/-- The `(index, score)` pairs selected by line 242 from an argsort output
`s`, in final output order: `s[-k:][::-1]`. -/
def topKPairsOf (s : List (Nat × ℚ)) (k : Nat) : List (Nat × ℚ) :=
  (pySliceLast k s).reverse

/-- Translation of line 242, `predictions.argsort()[-k:][::-1]`, applied to
an argsort output `s` and projected to the indices the loop at lines
243-246 consumes. -/
def top_kOf (s : List (Nat × ℚ)) (k : Nat) : List Nat :=
  (topKPairsOf s k).map Prod.fst

/-- Line 242 evaluated on a vector within the insertion-sort small-array
path, where the argsort output is uniquely determined. -/
def top_k_smallvec (xs : List ℚ) (k : Nat) : List Nat :=
  (pySliceLast k (argsort_smallvec xs)).reverse

/-- The small-vector insertion-sort path produces a valid argsort output. -/
lemma isArgsortOutput_insertionSort (xs : List ℚ) :
    IsArgsortOutput xs (List.insertionSort pairLe xs.enum) := by
  refine ⟨List.perm_insertionSort pairLe xs.enum,
    (List.sorted_insertionSort pairLe xs.enum).imp ?_⟩
  intro a b hab
  rcases hab with h | ⟨h, _⟩
  · exact le_of_lt h
  · exact le_of_eq h

/-- C2 is refuted on vectors inside numpy's insertion-sort small-array
path, where the argsort output is exact: on the tied probability vector
`[0, 0]` with `K = 2` the reduction returns `[1, 0]` — the HIGHER index
first, not the lower — and with `K = 0` it returns the whole 1-entry
vector instead of `min 0 1 = 0` entries (Python's `l[-0:]` is the whole
list). -/
theorem top_k_tie_counterexample :
    top_k_smallvec [(0 : ℚ), 0] 2 = [1, 0] ∧
    top_k_smallvec [(0 : ℚ), 0] 2 ≠ [0, 1] ∧
    (top_k_smallvec [(0 : ℚ)] 0).length = 1 ∧
    (top_k_smallvec [(0 : ℚ)] 0).length ≠ min 0 1 :=
  ⟨by decide, by decide, by decide, by decide⟩

/-- C2 amended: for every score vector, every `K ≥ 1` and every output the
unstable ascending argsort may produce, the reduction returns exactly
`min K n` entries, ordered by non-increasing score, each entry pairing an
index with the score stored at that index.  No tie order is guaranteed by
the program; on the counterexample's concrete tied 2-element vector the
(there exact) insertion-sort path puts the higher index first. -/
theorem top_k_amended (xs : List ℚ) (k : Nat) (s : List (Nat × ℚ))
    (hk : 1 ≤ k) (hs : IsArgsortOutput xs s) :
    (top_kOf s k).length = min k xs.length ∧
    (topKPairsOf s k).Pairwise (fun p q => q.2 ≤ p.2) ∧
    (∀ p ∈ topKPairsOf s k, xs[p.1]? = some p.2) := by
  obtain ⟨hperm, hsort⟩ := hs
  refine ⟨?_, ?_, ?_⟩
  · unfold top_kOf topKPairsOf pySliceLast
    rw [List.length_map, List.length_reverse, if_neg (by omega : ¬ k = 0),
      List.length_drop, hperm.length_eq, List.enum_length]
    omega
  · have hdrop : (pySliceLast k s).Pairwise (fun p q : Nat × ℚ => p.2 ≤ q.2) := by
      unfold pySliceLast
      by_cases hk0 : k = 0
      · rw [if_pos hk0]; exact hsort
      · rw [if_neg hk0]; exact hsort.sublist (List.drop_sublist _ _)
    exact List.pairwise_reverse.mpr hdrop
  · intro p hp
    unfold topKPairsOf at hp
    rw [List.mem_reverse] at hp
    have hp2 : p ∈ s := by
      unfold pySliceLast at hp
      by_cases hk0 : k = 0
      · rw [if_pos hk0] at hp; exact hp
      · rw [if_neg hk0] at hp; exact (List.drop_sublist _ _).subset hp
    exact List.mem_enum_iff_getElem?.mp (hperm.subset hp2)

/-- Witness for `top_k_amended`: the vector `[0, 1, 0]` with `K = 2` and
the concrete argsort output `[(0, 0), (2, 0), (1, 1)]` (one of the two
valid outputs for this vector). -/
theorem top_k_amended_witness :
    1 ≤ 2 ∧
    IsArgsortOutput [(0 : ℚ), 1, 0] [((0 : Nat), (0 : ℚ)), (2, 0), (1, 1)] ∧
    ((top_kOf [((0 : Nat), (0 : ℚ)), (2, 0), (1, 1)] 2).length =
        min 2 ([(0 : ℚ), 1, 0].length) ∧
     (topKPairsOf [((0 : Nat), (0 : ℚ)), (2, 0), (1, 1)] 2).Pairwise
       (fun p q => q.2 ≤ p.2) ∧
     (∀ p ∈ topKPairsOf [((0 : Nat), (0 : ℚ)), (2, 0), (1, 1)] 2,
        [(0 : ℚ), 1, 0][p.1]? = some p.2)) :=
  ⟨by decide, ⟨by decide, by decide⟩,
    top_k_amended [(0 : ℚ), 1, 0] 2 [((0 : Nat), (0 : ℚ)), (2, 0), (1, 1)]
      (by decide) ⟨by decide, by decide⟩⟩

/-! ## Per-request operations of `run_inference_on_image` (lines 207-249)

The body of `run_inference_on_image` performs, in order: the image file
read (line 218), `sess.run` (line 233), `np.squeeze` (line 235), the
`NodeLookup()` construction that re-parses both label files (line 238), and
one formatting step per returned entry (lines 243-246).  `time.time()` is
read at line 231 (after the file read, before `sess.run`) and again at
line 248 (after the formatting loop). -/

/-- The time-consuming operations of one request. -/
inductive Op where
  | readImage
  | sessRun
  | squeezeOp
  | buildLookup
  | formatEntry
deriving DecidableEq, Repr

/-- Timing skeleton of `run_inference_on_image`: the wall clock starts at
`clock0` (function entry), each operation advances it by its duration
`dur`, `start_time` is read at line 231 and the reported elapsed time is
computed at line 248, after the `k`-iteration formatting loop. -/
def run_inference_timing (dur : Op → Nat) (clock0 k : Nat) : Nat :=
  let clock1 := clock0 + dur Op.readImage
  let start_time := clock1
  let clock2 := clock1 + dur Op.sessRun
  let clock3 := clock2 + dur Op.squeezeOp
  let clock4 := clock3 + dur Op.buildLookup
  let clock5 := clock4 + k * dur Op.formatEntry
  clock5 - start_time

/-- Durations refuting C4: label-map parsing takes 3 ticks and each
formatting step 2 ticks, everything else is instantaneous. -/
def slowPostprocessing : Op → Nat
  | Op.buildLookup => 3
  | Op.formatEntry => 2
  | _ => 0

/-- C4 is refuted: with `slowPostprocessing` durations and 5 formatted
entries the reported elapsed time is 13 ticks although the `sess.run` call
took 0 ticks — the interval measured at line 248 includes the `NodeLookup`
construction (label-file parsing) and the formatting loop. -/
theorem reported_time_counterexample :
    run_inference_timing slowPostprocessing 0 5 = 13 ∧
    slowPostprocessing Op.sessRun = 0 ∧ (13 : Nat) ≠ 0 :=
  ⟨by decide, by decide, by decide⟩

/-- C4 amended: the reported elapsed time covers everything from just
before the `run` call to after result formatting — the `run` call, the
squeeze, the `NodeLookup` construction and the `k` formatting steps — while
excluding the image file read (the clock value `clock0` and the read
duration cancel out). -/
theorem reported_time_measures_run_to_formatting (dur : Op → Nat) (clock0 k : Nat) :
    run_inference_timing dur clock0 k =
      dur Op.sessRun + dur Op.squeezeOp + dur Op.buildLookup +
        k * dur Op.formatEntry := by
  dsimp only [run_inference_timing]
  omega

/-- Operation sequence of one `run_inference_on_image` call returning `k`
entries. -/
def run_inference_ops (k : Nat) : List Op :=
  [Op.readImage, Op.sessRun, Op.squeezeOp, Op.buildLookup] ++
    List.replicate k Op.formatEntry

/-- Operation sequence of the serving phase: the single-threaded HTTP loop
handles `n` requests one after another, each running
`run_inference_on_image` (line 92). -/
def serve_ops (k : Nat) : Nat → List Op
  | 0 => []
  | n + 1 => run_inference_ops k ++ serve_ops k n

/-- Number of `NodeLookup()` constructions (line 238) in an operation
sequence; each such construction re-parses both label-map files. -/
def countLookupBuilds (l : List Op) : Nat := l.countP (fun o => o == Op.buildLookup)

/-- C8 is refuted: a serving phase of 2 requests performs 2 `NodeLookup`
constructions — the label files are re-parsed during serving, not only
once per process. -/
theorem node_lookup_rebuilt_counterexample :
    countLookupBuilds (serve_ops 5 2) = 2 ∧ ¬ (2 ≤ 1) :=
  ⟨by decide, by decide⟩

lemma countLookupBuilds_run_inference_ops (k : Nat) :
    countLookupBuilds (run_inference_ops k) = 1 := by
  unfold countLookupBuilds run_inference_ops
  rw [List.countP_append]
  have hrep : (List.replicate k Op.formatEntry).countP
      (fun o => o == Op.buildLookup) = 0 := by
    induction k with
    | zero => rfl
    | succ n ih => rw [List.replicate_succ, List.countP_cons]; simp [ih]
  rw [hrep]
  decide

/-- C8 amended: the label resolver is constructed afresh on every served
request — a serving phase of `n` requests performs exactly `n` `NodeLookup`
constructions, each re-parsing the two label-map files. -/
theorem node_lookup_built_per_request (k n : Nat) :
    countLookupBuilds (serve_ops k n) = n := by
  induction n with
  | zero => rfl
  | succ m ih =>
    show countLookupBuilds (run_inference_ops k ++ serve_ops k m) = m + 1
    unfold countLookupBuilds
    rw [List.countP_append]
    have h1 := countLookupBuilds_run_inference_ops k
    unfold countLookupBuilds at h1 ih
    omega

/-! ## Download (`download_model`, lines 256-293) -/

/-- Translation of `is_valid_url` (lines 292-293): the URL check is an
unimplemented stub that accepts every string (`return True  # TODO`). -/
def is_valid_url (url : String) : Bool := true

/-- Result of a `download_model` call: the returned path, or a raised
`DownloadError` with its message. -/
inductive DLOutcome where
  | ok (path : String)
  | downloadError (msg : String)
deriving DecidableEq, Repr

/-- Translation of `download_model` (lines 256-289).  `isdir` is the
`os.path.isdir` oracle; `transfer_raises` tells whether `urlretrieve`
raises one of the two caught exception types (lines 285-286);
`file_exists_after` is `os.path.exists(path_to_filename)` after the
transfer (line 287).  A `none` destination selects the current directory
(line 269, `os.path.abspath('.')` modelled as `"."`), and `os.path.join`
is modelled as concatenation with a slash. -/
def download_model (url : String) (dst_dir : Option String)
    (isdir : String → Bool) (transfer_raises file_exists_after : Bool) :
    DLOutcome :=
  if is_valid_url url = false then
    DLOutcome.downloadError ("URL " ++ url ++ " is not valid")
  else
    let filename := (url.splitOn "/").getLastD ""
    let dst := dst_dir.getD "."
    if isdir dst = false then
      DLOutcome.downloadError (dst ++ " is not a valid directory!")
    else if transfer_raises then
      DLOutcome.downloadError "Download failed: urlretrieve raised"
    else if file_exists_after = false then
      DLOutcome.downloadError "Download failed: expected file does not exist."
    else
      DLOutcome.ok (dst ++ "/" ++ filename)

/-- C5 evidence: because `is_valid_url` is a stub returning `True` for every
string, `download_model` raises no `DownloadError` for ANY url — malformed
ones included — whenever the destination is a directory and the transfer
completes leaving the file in place.  The claimed failure on malformed URLs
does not exist in the code. -/
theorem download_model_accepts_any_url (url dst : String)
    (isdir : String → Bool) (h : isdir dst = true) :
    download_model url (some dst) isdir false true =
      DLOutcome.ok (dst ++ "/" ++ (url.splitOn "/").getLastD "") := by
  simp [download_model, is_valid_url, h]

/-- Witness for `download_model_accepts_any_url` at a malformed URL. -/
theorem download_model_accepts_any_url_witness :
    (fun _ : String => true) "/tmp" = true ∧
    download_model "::not a url::" (some "/tmp") (fun _ => true) false true =
      DLOutcome.ok ("/tmp" ++ "/" ++ ("::not a url::".splitOn "/").getLastD "") :=
  ⟨rfl, download_model_accepts_any_url "::not a url::" "/tmp" (fun _ => true) rfl⟩

/-! ## HTTP GET handling (`MyRequestHandler.do_GET`, lines 84-107) -/

/-- Splitting a character list at every occurrence of `sep`, keeping empty
fields — the behaviour of Python's `str.split(sep)`. -/
def splitOnSep (sep : Char) : List Char → List (List Char)
  | [] => [[]]
  | c :: cs =>
    match splitOnSep sep cs with
    | [] => [[]]
    | g :: gs => if c = sep then [] :: g :: gs else (c :: g) :: gs

/-- Splitting a field at its FIRST `=` when one occurs — Python's
`name_value.split('=', 1)`. -/
def splitFirstEq : List Char → Option (List Char × List Char)
  | [] => none
  | c :: cs =>
    if c = '=' then some ([], cs)
    else (splitFirstEq cs).map (fun p => (c :: p.1, p.2))

/-- Model of `urllib.parse.parse_qsl` with default arguments: fields are
separated by `&`; a field without `=` is skipped (strict parsing is off)
and a field with an empty value is skipped (blank values are not kept).
The stdlib's percent-decoding and plus-to-space decoding are omitted: they
are the identity on strings containing no encoded characters and do not
affect which pair is first. -/
def parse_qsl (qs : List Char) : List (List Char × List Char) :=
  (splitOnSep '&' qs).filterMap (fun field =>
    match splitFirstEq field with
    | none => none
    | some (n, v) => if v = [] then none else some (n, v))

/-- Result of one `do_GET` call: a `200` response recording the image path
that was handed to `run_inference_on_image` (lines 92-105), or the uncaught
`IndexError` of `parse_qsl(self.path[2:])[0]` (line 88), which aborts the
handler before any status line or body is written. -/
inductive GETOutcome where
  | response (imagePath : List Char) (status : Nat)
  | indexError
deriving DecidableEq, Repr

/-- Translation of `do_GET` (lines 84-107): the image path is
`parse_qsl(self.path[2:])[0][1]` — the value of the first parsed pair,
selected positionally.  (The model assumes `run_inference_on_image`
returns; its own fatal behaviour on a missing image file is a separate
concern.) -/
def do_GET (path : List Char) : GETOutcome :=
  match (parse_qsl (path.drop 2))[0]? with
  | none => GETOutcome.indexError
  | some kv => GETOutcome.response kv.2 200

/-- C6: for every GET request whose query string parses to at least one
key/value pair, the image path used for inference is the value of the FIRST
pair, whatever its key — there is no lookup of a key named `image_path`. -/
theorem image_path_is_first_pair_value (path k v : List Char)
    (rest : List (List Char × List Char))
    (h : parse_qsl (path.drop 2) = (k, v) :: rest) :
    do_GET path = GETOutcome.response v 200 := by
  simp [do_GET, h]

/-- Witness for `image_path_is_first_pair_value`: the request target
`/?foo=/root/a.jpg`, whose single pair has key `foo`, not `image_path`. -/
theorem image_path_is_first_pair_value_witness :
    parse_qsl (("/?foo=/root/a.jpg".data).drop 2) =
      [("foo".data, "/root/a.jpg".data)] ∧
    "foo".data ≠ "image_path".data ∧
    do_GET "/?foo=/root/a.jpg".data = GETOutcome.response "/root/a.jpg".data 200 :=
  ⟨by decide, by decide,
    image_path_is_first_pair_value "/?foo=/root/a.jpg".data "foo".data
      "/root/a.jpg".data [] (by decide)⟩

/-- C10: a GET request whose target yields no parseable key/value pair
after its first two characters are dropped makes the handler raise an
uncaught `IndexError` at line 88: no status line and no body are ever
sent. -/
theorem no_query_uncaught_index_error (path : List Char)
    (h : parse_qsl (path.drop 2) = []) :
    do_GET path = GETOutcome.indexError ∧
    ∀ v s, do_GET path ≠ GETOutcome.response v s := by
  refine ⟨by simp [do_GET, h], ?_⟩
  intro v s
  simp [do_GET, h]

/-- Witness for `no_query_uncaught_index_error`: the bare target `/`. -/
theorem no_query_uncaught_index_error_witness :
    parse_qsl (("/".data).drop 2) = [] ∧
    do_GET "/".data = GETOutcome.indexError :=
  ⟨by decide, (no_query_uncaught_index_error "/".data (by decide)).1⟩

/-! ## Warm-up image selection (`main` lines 346-350, `warm_up_model` lines 189-191) -/

/-- The bundled default image `os.path.join(abspath(model_dir),
'cropped_panda.jpg')` of line 348 (`os.path.abspath` modelled as the
identity on the already-absolute model directory). -/
def cropped_panda_path (model_dir : String) : String :=
  model_dir ++ "/cropped_panda.jpg"

/-- Lines 346-349: the warm-up image is the operator flag, unless the flag
is empty (falsy) or the path does not exist, in which case the bundled
default inside the model directory is substituted.  `ex` is the
`os.path.exists` oracle. -/
def select_warm_up_image (flag model_dir : String) (ex : String → Bool) : String :=
  if flag == "" || !(ex flag) then cropped_panda_path model_dir else flag

/-- Whether startup reaches the serving phase, and with which warm-up
image. -/
inductive StartupResult where
  | fatalStop
  | serving (warmImage : String)
deriving DecidableEq, Repr

/-- Lines 346-350 with 189-191: after acquisition, `main` selects the
warm-up image and calls `warm_up_model`; when the selected image does not
exist the fatal log of line 190 is followed by the failing read of line
191, aborting the process before `HTTPServer` is created (line 353);
otherwise warm-up completes and serving begins. -/
def startup_warm_up (flag model_dir : String) (ex : String → Bool) : StartupResult :=
  let image := select_warm_up_image flag model_dir ex
  if !(ex image) then StartupResult.fatalStop else StartupResult.serving image

/-- C7: the warm-up image is the operator-supplied path when that path
exists; otherwise it is the bundled default inside the model directory; and
when neither exists, startup fails fatally before serving begins.  The
hypothesis `ex "" = false` records Python's `os.path.exists('') == False`
(an empty flag never exists). -/
theorem warm_up_image_selection (flag mdir : String) (ex : String → Bool)
    (hempty : ex "" = false) :
    (ex flag = true → startup_warm_up flag mdir ex = StartupResult.serving flag) ∧
    (ex flag = false → ex (cropped_panda_path mdir) = true →
      startup_warm_up flag mdir ex =
        StartupResult.serving (cropped_panda_path mdir)) ∧
    (ex flag = false → ex (cropped_panda_path mdir) = false →
      startup_warm_up flag mdir ex = StartupResult.fatalStop) := by
  refine ⟨?_, ?_, ?_⟩
  · intro hf
    have hne : ¬ (flag = "") := by
      intro he
      rw [he, hempty] at hf
      exact Bool.noConfusion hf
    simp [startup_warm_up, select_warm_up_image, hne, hf]
  · intro hf hd
    simp [startup_warm_up, select_warm_up_image, hf, hd]
  · intro hf hd
    simp [startup_warm_up, select_warm_up_image, hf, hd]

/-- Witness for `warm_up_image_selection`: a file system on which exactly
the operator-supplied image exists. -/
theorem warm_up_image_selection_witness :
    (fun s => s == "/root/warm.jpg") "" = false ∧
    (((fun s => s == "/root/warm.jpg") "/root/warm.jpg" = true →
      startup_warm_up "/root/warm.jpg" "/tmp/imagenet"
          (fun s => s == "/root/warm.jpg") = StartupResult.serving "/root/warm.jpg") ∧
     ((fun s => s == "/root/warm.jpg") "/root/warm.jpg" = false →
      (fun s => s == "/root/warm.jpg") (cropped_panda_path "/tmp/imagenet") = true →
      startup_warm_up "/root/warm.jpg" "/tmp/imagenet"
          (fun s => s == "/root/warm.jpg") =
        StartupResult.serving (cropped_panda_path "/tmp/imagenet")) ∧
     ((fun s => s == "/root/warm.jpg") "/root/warm.jpg" = false →
      (fun s => s == "/root/warm.jpg") (cropped_panda_path "/tmp/imagenet") = false →
      startup_warm_up "/root/warm.jpg" "/tmp/imagenet"
          (fun s => s == "/root/warm.jpg") = StartupResult.fatalStop)) :=
  ⟨by decide,
    warm_up_image_selection "/root/warm.jpg" "/tmp/imagenet"
      (fun s => s == "/root/warm.jpg") (by decide)⟩
